import Mathlib

/-
Verification of the ByteChat backend (src/backend/main.py, src/backend/auth.py).

The embedding models:
  * the `users` table row and `get_or_create_user` (main.py lines 69-114);
  * the end-of-stream ledger update performed inside the `[DONE]` branch of
    `stream_chat.generate` (main.py lines 280-299), called `reconcile` here;
  * the line-by-line body of the `generate` async generator
    (main.py lines 255-327): upstream lines are classified exactly as the
    code classifies them (blank line, line without the data marker,
    the literal done sentinel, a parseable JSON chunk, an unparseable
    payload), usage tracking overwrites the three counters
    (lines 313-317), and the loop terminates either by the break at the
    done sentinel, by exhausting the upstream lines, or by one of the two
    exception handlers (ReadTimeout / generic exception, lines 324-327);
  * the pre-stream part of the `stream_chat` handler (main.py lines 206-337):
    401 on failed verification, 403 on exhausted quota before any upstream
    connection is opened (the `get_or_create_user` returning None on a storage
    failure, and the outer 500 handler, are not modelled: no claim concerns
    them);
  * `GmailAuth.verify_access_token` (auth.py lines 68-109), including the
    extra diagnostic call to the tokeninfo endpoint made when the userinfo
    endpoint returns a non-success status.

Exceptions raised by the upstream line iterator are modelled by a
`Termination` value describing how the iteration ended after the delivered
lines; a stream that reached the done sentinel breaks out of the loop, so
no termination error can apply to it.
-/

namespace ByteChat

/-- Row of the `users` table (token columns and profile fields; the id and
timestamp columns play no role in any claim). -/
structure Account where
  email : String
  name : String
  picture : Option String
  total_tokens : Int
  tokens_used : Int
  tokens_left : Int
deriving Repr, DecidableEq

/-- Result of `GmailAuth.verify_access_token`: the dict built from the
userinfo response (main.py receives it as `user_info`). The `.get` calls
make every field optional except the defaulted verified flag. -/
structure UserInfo where
  email : Option String
  name : Option String
  picture : Option String
  verified_email : Bool
deriving Repr, DecidableEq

/-- Embeds `get_or_create_user` (main.py lines 69-114): an unseen email gets
a fresh row with 1000000 total tokens, none used; a seen email has its
profile fields refreshed and its counters returned unchanged. -/
def get_or_create_user (existing : Option Account) (email name : String)
    (picture : Option String) : Account :=
  match existing with
  | some u => { u with name := name, picture := picture }
  | none =>
      { email := email, name := name, picture := picture,
        total_tokens := 1000000, tokens_used := 0, tokens_left := 1000000 }

/-- Usage object of a provider chunk; each field is read with
`usage.get(key, default)` so all are optional. -/
structure Usage where
  prompt_tokens : Option Nat
  completion_tokens : Option Nat
  total_tokens : Option Nat
deriving Repr, DecidableEq

/-- Parseable JSON payload of an upstream data line: the optional `usage`
object that the accounting reads, plus the rest of the payload, which is
forwarded verbatim. -/
structure Chunk where
  usage : Option Usage
  content : String
deriving Repr, DecidableEq

/-- Total tokens a chunk reports, per main.py lines 313-317: the usage
object's `total_tokens`, defaulting to prompt plus completion counts. -/
def chunkTotal (c : Chunk) : Option Nat :=
  c.usage.map fun u =>
    u.total_tokens.getD (u.prompt_tokens.getD 0 + u.completion_tokens.getD 0)

/-- Chunk whose usage object carries only `total_tokens := t`. -/
def usageChunk (t : Nat) : Chunk :=
  { usage := some { prompt_tokens := none, completion_tokens := none,
                    total_tokens := some t },
    content := "chunk" }

/-- One upstream line as classified by the loop in main.py lines 273-322:
blank after strip, missing the `data: ` marker, the done sentinel, a
parseable payload, or a payload that raises JSONDecodeError. -/
inductive Line where
  | blank : Line
  | other : String → Line
  | doneSentinel : Line
  | valid : Chunk → Line
  | corrupt : String → Line
deriving Repr, DecidableEq

/-- In-memory usage counters of the generator (main.py lines 256-258). -/
structure UsageState where
  prompt_tokens : Nat
  completion_tokens : Nat
  total_tokens : Nat
deriving Repr, DecidableEq

/-- Embeds main.py lines 313-317: a chunk carrying a usage object overwrites
all three counters; a chunk without one leaves them unchanged. -/
def track_usage (st : UsageState) (c : Chunk) : UsageState :=
  match c.usage with
  | none => st
  | some u =>
      let p := u.prompt_tokens.getD 0
      let comp := u.completion_tokens.getD 0
      { prompt_tokens := p, completion_tokens := comp,
        total_tokens := u.total_tokens.getD (p + comp) }

/-- Embeds the UPDATE statement of main.py lines 284-290: one atomic
read-modify-write adding the billed amount to `tokens_used` and
subtracting it from `tokens_left`. There is no clamp at zero. -/
def reconcile (acc : Account) (t : Nat) : Account :=
  { acc with tokens_used := acc.tokens_used + (t : Int),
             tokens_left := acc.tokens_left - (t : Int) }

/-- One frame yielded to the downstream caller. -/
inductive OutFrame where
  | chunk : Chunk → OutFrame
  | tokenUpdate : Int → Nat → OutFrame
  | doneFrame : OutFrame
  | errorFrame : String → OutFrame
deriving Repr, DecidableEq

/-- How the upstream line iteration ended when the done sentinel was never
reached: normally, by httpx.ReadTimeout, or by another exception. -/
inductive Termination where
  | normalEnd : Termination
  | readTimeout : Termination
  | streamError : String → Termination
deriving Repr, DecidableEq

/-- Embeds the `async for` loop of main.py lines 273-322. `snap` is the
`user` dict captured before streaming (its stale `tokens_left` seeds
`updated_tokens_left`); `db` is the live account row. Returns the frames
yielded, the account row after the loop, the number of ledger updates
executed, and whether the done sentinel was reached (the break). At the
done sentinel the update runs only when the observed total is positive, in
which case the fresh SELECT re-reads `tokens_left` from the updated row;
otherwise the stale snapshot value is reported. -/
def processLines (snap : Account) :
    List Line → UsageState → Account → List OutFrame × Account × Nat × Bool
  | [], _, db => ([], db, 0, false)
  | Line.blank :: ls, st, db => processLines snap ls st db
  | Line.other _ :: ls, st, db => processLines snap ls st db
  | Line.corrupt _ :: ls, st, db => processLines snap ls st db
  | Line.valid c :: ls, st, db =>
      let r := processLines snap ls (track_usage st c) db
      (OutFrame.chunk c :: r.1, r.2)
  | Line.doneSentinel :: _, st, db =>
      if 0 < st.total_tokens then
        let db2 := reconcile db st.total_tokens
        ([OutFrame.tokenUpdate db2.tokens_left st.total_tokens,
          OutFrame.doneFrame], db2, 1, true)
      else
        ([OutFrame.tokenUpdate snap.tokens_left st.total_tokens,
          OutFrame.doneFrame], db, 0, true)

/-- Embeds the whole `generate` generator body (main.py lines 255-327):
a non-success initial status yields a single error frame and returns
(lines 268-271); otherwise the loop runs, and if the done sentinel was
never reached, the exception handlers of lines 324-327 append at most one
error frame. Returns the yielded frames, the final account row and the
number of ledger updates. -/
def generate (status : Nat) (errorBody : String) (lines : List Line)
    (term : Termination) (snap db : Account) : List OutFrame × Account × Nat :=
  if status ≠ 200 then
    ([OutFrame.errorFrame ("OpenRouter API error: " ++ errorBody)], db, 0)
  else
    match processLines snap lines ⟨0, 0, 0⟩ db, term with
    | (out, db2, n, true), _ => (out, db2, n)
    | (out, db2, n, false), Termination.normalEnd => (out, db2, n)
    | (out, db2, n, false), Termination.readTimeout =>
        (out ++ [OutFrame.errorFrame "Request timeout"], db2, n)
    | (out, db2, n, false), Termination.streamError m =>
        (out ++ [OutFrame.errorFrame ("Stream error: " ++ m)], db2, n)

/-- Result of the `stream_chat` handler: an HTTPException with status and
detail, or the streaming response (frames, final account row, number of
ledger updates). -/
inductive ChatResult where
  | httpError : Nat → String → ChatResult
  | streamResp : List OutFrame → Account → Nat → ChatResult
deriving Repr, DecidableEq

/-- Number of upstream connections opened for a handler result: the
streaming branch opens exactly one (the `client.stream` call inside
`generate`, main.py line 262); the error branches raise before the
httpx client is ever constructed, so they open none. -/
def upstreamOpens : ChatResult → Nat
  | ChatResult.httpError _ _ => 0
  | ChatResult.streamResp _ _ _ => 1

/-- Embeds the pre-stream part of `stream_chat` (main.py lines 206-337):
401 when verification returned None, then get-or-create, then 403 when the
account has no tokens left — only past that gate is the streaming response
built. -/
def stream_chat (verified : Option UserInfo) (existing : Option Account)
    (status : Nat) (errorBody : String) (lines : List Line)
    (term : Termination) : ChatResult :=
  match verified with
  | none => ChatResult.httpError 401 "Invalid access token"
  | some ui =>
      let user := get_or_create_user existing (ui.email.getD "")
        (ui.name.getD "") ui.picture
      if user.tokens_left ≤ 0 then
        ChatResult.httpError 403
          "Insufficient tokens. Please contact support to add more tokens."
      else
        let r := generate status errorBody lines term user user
        ChatResult.streamResp r.1 r.2.1 r.2.2

/-- Outbound endpoints `verify_access_token` can call (auth.py lines 77-91). -/
inductive Endpoint where
  | userinfo : Endpoint
  | tokeninfo : Endpoint
deriving Repr, DecidableEq

/-- Response of the userinfo GET: HTTP status, whether `.json()` parses,
and the identity fields read from the parsed body. -/
structure HttpResp where
  status : Nat
  jsonOk : Bool
  email : Option String
  name : Option String
  picture : Option String
  verified_email : Option Bool
deriving Repr, DecidableEq

/-- Embeds `GmailAuth.verify_access_token` (auth.py lines 68-109). The
argument is the outcome of the userinfo GET (`none` when requests.get
raised, caught by the broad except). On a non-success status the code
additionally calls the tokeninfo endpoint for diagnostics, ignores its
outcome, and returns None. Returns the result together with the list of
endpoints called, in order. -/
def verify_access_token (userinfoResult : Option HttpResp) :
    Option UserInfo × List Endpoint :=
  match userinfoResult with
  | none => (none, [Endpoint.userinfo])
  | some r =>
      if r.status ≠ 200 then (none, [Endpoint.userinfo, Endpoint.tokeninfo])
      else if r.jsonOk = false then (none, [Endpoint.userinfo])
      else (some { email := r.email, name := r.name, picture := r.picture,
                   verified_email := (r.verified_email.getD false) },
            [Endpoint.userinfo])

/-- Fresh account of the scenario identity. -/
def a0 : Account :=
  { email := "a@x.com", name := "A", picture := none,
    total_tokens := 1000000, tokens_used := 0, tokens_left := 1000000 }

/-- Account with only 10 tokens left. -/
def lowAcct : Account :=
  { email := "a@x.com", name := "A", picture := none,
    total_tokens := 1000000, tokens_used := 999990, tokens_left := 10 }

/-- Account whose quota is exhausted. -/
def exhaustedAcct : Account :=
  { email := "a@x.com", name := "A", picture := none,
    total_tokens := 1000000, tokens_used := 1000000, tokens_left := 0 }

/-- Verified identity used by concrete instances. -/
def uiA : UserInfo :=
  { email := some "a@x.com", name := some "A", picture := none,
    verified_email := true }

/-- Userinfo response with a 401 status. -/
def resp401 : HttpResp :=
  { status := 401, jsonOk := true, email := none, name := none,
    picture := none, verified_email := none }

/-- Userinfo response with a 500 status. -/
def resp500 : HttpResp :=
  { status := 500, jsonOk := true, email := none, name := none,
    picture := none, verified_email := none }

/-- Helper: a list of lines without the done sentinel never touches the
account row, never runs the ledger update, and never sets the break flag. -/
theorem processLines_no_done (snap : Account) :
    ∀ (lines : List Line), Line.doneSentinel ∉ lines →
      ∀ (st : UsageState) (db : Account),
        (processLines snap lines st db).2 = (db, 0, false) := by
  intro lines
  induction lines with
  | nil => intro _ st db; simp [processLines]
  | cons l ls ih =>
      intro h st db
      have hls : Line.doneSentinel ∉ ls := fun hm => h (List.mem_cons_of_mem l hm)
      cases l with
      | blank => simpa [processLines] using ih hls st db
      | other s => simpa [processLines] using ih hls st db
      | corrupt s => simpa [processLines] using ih hls st db
      | valid c => simpa [processLines] using ih hls (track_usage st c) db
      | doneSentinel => exact absurd (List.mem_cons_self _ _) h

/-- Helper: the loop executes the ledger update at most once. -/
theorem processLines_count_le_one (snap : Account) (lines : List Line) :
    ∀ (st : UsageState) (db : Account),
      (processLines snap lines st db).2.2.1 ≤ 1 := by
  induction lines with
  | nil => intro st db; simp [processLines]
  | cons l ls ih =>
      intro st db
      cases l with
      | blank => simpa [processLines] using ih st db
      | other s => simpa [processLines] using ih st db
      | corrupt s => simpa [processLines] using ih st db
      | valid c => simpa [processLines] using ih (track_usage st c) db
      | doneSentinel =>
          simp only [processLines]
          split <;> simp

/-- Helper: a generator run that ends normally returns exactly what the
loop produced. -/
theorem generate_normal (e : String) (lines : List Line) (snap db : Account) :
    generate 200 e lines Termination.normalEnd snap db
      = ((processLines snap lines ⟨0, 0, 0⟩ db).1,
         (processLines snap lines ⟨0, 0, 0⟩ db).2.1,
         (processLines snap lines ⟨0, 0, 0⟩ db).2.2.1) := by
  rcases hpl : processLines snap lines ⟨0, 0, 0⟩ db with ⟨out, db2, n, b⟩
  cases b <;> simp [generate, hpl]

/-- Helper: a chunk carrying a usage object sets the total counter to the
total that chunk reports, whatever the previous state. -/
theorem track_total (st : UsageState) (c : Chunk) (t : Nat)
    (ht : chunkTotal c = some t) : (track_usage st c).total_tokens = t := by
  cases hu : c.usage with
  | none => simp [chunkTotal, hu] at ht
  | some u =>
      simp only [chunkTotal, hu, Option.map_some] at ht
      simp only [track_usage, hu]
      simpa using ht

/-- Helper: chunks without usage objects leave the counters unchanged. -/
theorem foldl_track_none (post : List Chunk) :
    ∀ (st : UsageState), (∀ d ∈ post, d.usage = none) →
      post.foldl track_usage st = st := by
  induction post with
  | nil => intro st _; rfl
  | cons d ds ih =>
      intro st h
      rw [List.foldl_cons]
      have hd : d.usage = none := h d (List.mem_cons_self d ds)
      rw [show track_usage st d = st from by simp [track_usage, hd]]
      exact ih st fun x hx => h x (List.mem_cons_of_mem d hx)

/-- Helper: a run of valid chunk lines forwards each chunk and threads the
usage state through `track_usage`. -/
theorem processLines_map_valid (snap : Account) (cs : List Chunk)
    (rest : List Line) :
    ∀ (st : UsageState) (db : Account),
      processLines snap (cs.map Line.valid ++ rest) st db
        = (cs.map OutFrame.chunk
             ++ (processLines snap rest (cs.foldl track_usage st) db).1,
           (processLines snap rest (cs.foldl track_usage st) db).2) := by
  induction cs with
  | nil => intro st db; simp
  | cons c cs ih =>
      intro st db
      simp only [List.map_cons, List.cons_append, List.foldl_cons]
      rw [processLines]
      rw [ih (track_usage st c) db]

/-- C1 (counterexample): the claim says the end-of-stream reconciliation
clamps `tokens_left` at zero, so it is never negative. On an account with
10 tokens left, a stream that reports 50 consumed tokens drives
`tokens_left` to -40: the UPDATE statement subtracts without clamping. -/
theorem C1_counterexample :
    ((generate 200 "" [Line.valid (usageChunk 50), Line.doneSentinel]
        Termination.normalEnd lowAcct lowAcct).2.1).tokens_left < 0 := by
  decide

/-- C1 (amended): the end-of-stream reconciliation applies
`tokens_used += consumedTokens` and `tokens_left = tokens_left -
consumedTokens` as one atomic read-modify-write, with no clamp at zero:
after any sequence of reconciliations `tokens_used` has grown by the total
billed and `tokens_left` has dropped by it, going negative whenever the
billed total exceeds the starting balance. -/
theorem C1_amended (acc : Account) (cs : List Nat) :
    (cs.foldl reconcile acc).tokens_used
        = acc.tokens_used + ((cs.sum : Nat) : Int) ∧
    (cs.foldl reconcile acc).tokens_left
        = acc.tokens_left - ((cs.sum : Nat) : Int) := by
  induction cs generalizing acc with
  | nil => simp
  | cons c cs ih =>
      rcases ih (reconcile acc c) with ⟨h1, h2⟩
      constructor
      · rw [List.foldl_cons, h1]
        simp [reconcile, List.sum_cons]
        ring
      · rw [List.foldl_cons, h2]
        simp [reconcile, List.sum_cons]
        ring

/-- C2 (counterexample): the claim says a mid-stream upstream failure still
triggers the ledger reconciliation with the last observed usage total. On
a stream that observed a usage total of 50 and then hit a read timeout,
the caller gets the forwarded chunk plus a single error frame, but the
account row is untouched and the ledger update ran zero times. -/
theorem C2_counterexample :
    generate 200 "" [Line.valid (usageChunk 50)] Termination.readTimeout a0 a0
      = ([OutFrame.chunk (usageChunk 50), OutFrame.errorFrame "Request timeout"],
         a0, 0) := by
  rfl

/-- C2 (amended): for every stream that fails mid-stream with an upstream
error after streaming has begun, the proxy appends a single in-band
error-tagged frame to the already-forwarded frames and the stream closes
without any ledger reconciliation: the last observed usage total is
discarded and the account row is unchanged. -/
theorem C2_amended (e m : String) (lines : List Line) (snap db : Account)
    (h : Line.doneSentinel ∉ lines) :
    generate 200 e lines Termination.readTimeout snap db
        = ((generate 200 e lines Termination.normalEnd snap db).1
             ++ [OutFrame.errorFrame "Request timeout"], db, 0) ∧
    generate 200 e lines (Termination.streamError m) snap db
        = ((generate 200 e lines Termination.normalEnd snap db).1
             ++ [OutFrame.errorFrame ("Stream error: " ++ m)], db, 0) := by
  have h2 := processLines_no_done snap lines h ⟨0, 0, 0⟩ db
  rcases hpl : processLines snap lines ⟨0, 0, 0⟩ db with ⟨out, db2, n, b⟩
  rw [hpl] at h2
  simp only [Prod.mk.injEq] at h2
  rcases h2 with ⟨hdb, hn, hb⟩
  subst hdb; subst hn; subst hb
  constructor <;> simp [generate, hpl]

/-- C2 (witness for the amended theorem): concrete instance with one usage
frame observed and then a timeout. -/
theorem C2_amended_witness :
    Line.doneSentinel ∉ [Line.valid (usageChunk 7)] ∧
    (generate 200 "" [Line.valid (usageChunk 7)] Termination.readTimeout a0 a0
        = ((generate 200 "" [Line.valid (usageChunk 7)]
              Termination.normalEnd a0 a0).1
             ++ [OutFrame.errorFrame "Request timeout"], a0, 0) ∧
     generate 200 "" [Line.valid (usageChunk 7)]
         (Termination.streamError "boom") a0 a0
        = ((generate 200 "" [Line.valid (usageChunk 7)]
              Termination.normalEnd a0 a0).1
             ++ [OutFrame.errorFrame ("Stream error: " ++ "boom")], a0, 0)) :=
  ⟨by decide, C2_amended "" "boom" [Line.valid (usageChunk 7)] a0 a0 (by decide)⟩

/-- C3 (counterexample): the claim says the latest non-zero usage total
wins. On a stream whose usage frames report totals 50 then 0, the latest
non-zero total is 50, yet the code applies the latest total — 0 — so no
ledger update runs, the account row is unchanged, and the accounting frame
reports 0 used. -/
theorem C3_counterexample :
    generate 200 ""
        [Line.valid (usageChunk 50), Line.valid (usageChunk 0),
         Line.doneSentinel] Termination.normalEnd a0 a0
      = ([OutFrame.chunk (usageChunk 50), OutFrame.chunk (usageChunk 0),
          OutFrame.tokenUpdate 1000000 0, OutFrame.doneFrame], a0, 0) := by
  rfl

/-- C3 (amended): each usage frame overwrites the in-memory total rather
than being summed, so the amount applied at reconciliation is exactly the
total reported by the latest usage-bearing frame (when positive),
regardless of what earlier frames reported; a latest total of zero wins
too and suppresses the ledger update. -/
theorem C3_amended (snap db : Account) (pre post : List Chunk) (c : Chunk)
    (t : Nat) (ht : chunkTotal c = some t)
    (hpost : ∀ d ∈ post, d.usage = none) (hpos : 0 < t) :
    generate 200 "" ((pre ++ c :: post).map Line.valid ++ [Line.doneSentinel])
        Termination.normalEnd snap db
      = ((pre ++ c :: post).map OutFrame.chunk
           ++ [OutFrame.tokenUpdate (db.tokens_left - (t : Int)) t,
               OutFrame.doneFrame],
         reconcile db t, 1) := by
  have htot : ((pre ++ c :: post).foldl track_usage ⟨0, 0, 0⟩).total_tokens
      = t := by
    rw [List.foldl_append, List.foldl_cons]
    rw [foldl_track_none post _ hpost]
    exact track_total _ c t ht
  rw [generate_normal]
  rw [processLines_map_valid]
  simp only [processLines, htot, hpos, if_pos]
  simp [reconcile]

/-- C3 (witness for the amended theorem): an earlier usage frame reporting
30 is overwritten by the final usage frame reporting 50, and 50 is what is
billed. -/
theorem C3_amended_witness :
    chunkTotal (usageChunk 50) = some 50 ∧
    generate 200 ""
        (([usageChunk 30] ++ usageChunk 50 :: []).map Line.valid
           ++ [Line.doneSentinel]) Termination.normalEnd a0 a0
      = (([usageChunk 30] ++ usageChunk 50 :: []).map OutFrame.chunk
           ++ [OutFrame.tokenUpdate (a0.tokens_left - ((50 : Nat) : Int)) 50,
               OutFrame.doneFrame],
         reconcile a0 50, 1) :=
  ⟨by decide,
   C3_amended a0 a0 [usageChunk 30] [] (usageChunk 50) 50 (by decide)
     (fun d hd => absurd hd (List.not_mem_nil d)) (by decide)⟩

/-- C4: for every stream — whatever the initial status, the upstream lines,
and how the iteration ends — the ledger reconciliation update is executed
at most once. -/
theorem C4_reconcile_at_most_once (status : Nat) (e : String)
    (lines : List Line) (term : Termination) (snap db : Account) :
    (generate status e lines term snap db).2.2 ≤ 1 := by
  have hp := processLines_count_le_one snap lines ⟨0, 0, 0⟩ db
  by_cases hs : status = 200
  · subst hs
    rcases hpl : processLines snap lines ⟨0, 0, 0⟩ db with ⟨out, db2, n, b⟩
    rw [hpl] at hp
    simp only at hp
    cases b <;> cases term <;> simpa [generate, hpl] using hp
  · simp [generate, hs]

/-- C5: for every verified user whose account, after get-or-create, has
`tokens_left` at or below zero, the handler fails fast with status 403 and
the fixed detail message, and no upstream connection is opened. -/
theorem C5_quota_fail_fast (ui : UserInfo) (existing : Option Account)
    (status : Nat) (e : String) (lines : List Line) (term : Termination)
    (h : (get_or_create_user existing (ui.email.getD "") (ui.name.getD "")
            ui.picture).tokens_left ≤ 0) :
    stream_chat (some ui) existing status e lines term
        = ChatResult.httpError 403
            "Insufficient tokens. Please contact support to add more tokens." ∧
    upstreamOpens (stream_chat (some ui) existing status e lines term) = 0 := by
  have hmain : stream_chat (some ui) existing status e lines term
      = ChatResult.httpError 403
          "Insufficient tokens. Please contact support to add more tokens." := by
    simp [stream_chat, h]
  exact ⟨hmain, by rw [hmain]; rfl⟩

/-- C5 (witness): a user whose account has exactly zero tokens left gets
the 403 and the upstream relay records zero invocations. -/
theorem C5_witness :
    (get_or_create_user (some exhaustedAcct) (uiA.email.getD "")
        (uiA.name.getD "") uiA.picture).tokens_left ≤ 0 ∧
    (stream_chat (some uiA) (some exhaustedAcct) 200 "" []
         Termination.normalEnd
        = ChatResult.httpError 403
            "Insufficient tokens. Please contact support to add more tokens." ∧
     upstreamOpens (stream_chat (some uiA) (some exhaustedAcct) 200 "" []
         Termination.normalEnd) = 0) :=
  ⟨by decide,
   C5_quota_fail_fast uiA (some exhaustedAcct) 200 "" []
     Termination.normalEnd (by decide)⟩

/-- C6: a corrupt frame between two valid frames is silently skipped: the
whole generator output (frames, account row, update count) is the same as
if the corrupt frame were absent, and the caller receives exactly the two
valid frames, then the accounting frame, then the terminal sentinel, in
arrival order. -/
theorem C6_corrupt_frame_skipped (c1 c2 : Chunk) (s e : String)
    (term : Termination) (snap db : Account) :
    generate 200 e
        [Line.valid c1, Line.corrupt s, Line.valid c2, Line.doneSentinel]
        term snap db
      = generate 200 e [Line.valid c1, Line.valid c2, Line.doneSentinel]
          term snap db ∧
    ∃ tl tu,
      (generate 200 e
          [Line.valid c1, Line.corrupt s, Line.valid c2, Line.doneSentinel]
          term snap db).1
        = [OutFrame.chunk c1, OutFrame.chunk c2,
           OutFrame.tokenUpdate tl tu, OutFrame.doneFrame] := by
  constructor
  · rfl
  · by_cases h :
        0 < (track_usage (track_usage ⟨0, 0, 0⟩ c1) c2).total_tokens
    · exact ⟨(reconcile db
          (track_usage (track_usage ⟨0, 0, 0⟩ c1) c2).total_tokens).tokens_left,
        (track_usage (track_usage ⟨0, 0, 0⟩ c1) c2).total_tokens,
        by simp [generate, processLines, h]⟩
    · exact ⟨snap.tokens_left,
        (track_usage (track_usage ⟨0, 0, 0⟩ c1) c2).total_tokens,
        by simp [generate, processLines, h]⟩

/-- C7 (counterexample): the claim says verification performs exactly one
outbound call with no fallback to an alternate endpoint. On a userinfo
response with status 401, the code makes a second call, to the tokeninfo
endpoint, before reporting failure. -/
theorem C7_counterexample :
    verify_access_token (some resp401)
      = (none, [Endpoint.userinfo, Endpoint.tokeninfo]) := by
  decide

/-- C7 (amended): verification always calls the userinfo endpoint once; on
a transport exception or a parseable success it makes no other call; on a
non-success status it makes exactly one additional diagnostic call to the
alternate tokeninfo endpoint, ignores its outcome, and reports the failure
immediately — the primary endpoint is never retried. -/
theorem C7_amended (u : Option HttpResp) :
    (u = none → verify_access_token u = (none, [Endpoint.userinfo])) ∧
    (∀ r, u = some r → r.status ≠ 200 →
        verify_access_token u
          = (none, [Endpoint.userinfo, Endpoint.tokeninfo])) ∧
    (∀ r, u = some r → r.status = 200 →
        (verify_access_token u).2 = [Endpoint.userinfo]) := by
  refine ⟨?_, ?_, ?_⟩
  · rintro rfl; rfl
  · rintro r rfl hr
    simp [verify_access_token, hr]
  · rintro r rfl hr
    rcases hb : r.jsonOk <;> simp [verify_access_token, hr, hb]

/-- C7 (witness for the amended theorem): a 500 userinfo response triggers
the extra tokeninfo call and an immediate failure. -/
theorem C7_amended_witness :
    resp500.status ≠ 200 ∧
    verify_access_token (some resp500)
      = (none, [Endpoint.userinfo, Endpoint.tokeninfo]) :=
  ⟨by decide, (C7_amended (some resp500)).2.1 resp500 rfl (by decide)⟩

/-- C8: when the upstream provider returns a non-success initial status,
the caller receives exactly one frame — an error frame carrying the
provider's error body — the stream closes, the account row is unchanged
and the ledger update runs zero times. -/
theorem C8_prestream_error (status : Nat) (h : status ≠ 200) (e : String)
    (lines : List Line) (term : Termination) (snap db : Account) :
    generate status e lines term snap db
      = ([OutFrame.errorFrame ("OpenRouter API error: " ++ e)], db, 0) := by
  simp [generate, h]

/-- C8 (witness): a 500 initial status with any pending lines yields the
single error frame and leaves the account untouched. -/
theorem C8_witness :
    (500 : Nat) ≠ 200 ∧
    generate 500 "quota" [Line.valid (usageChunk 5)] Termination.normalEnd
        a0 a0
      = ([OutFrame.errorFrame ("OpenRouter API error: " ++ "quota")], a0, 0) :=
  ⟨by decide,
   C8_prestream_error 500 (by decide) "quota" [Line.valid (usageChunk 5)]
     Termination.normalEnd a0 a0⟩

/-- C9: a previously-unseen identity gets an account with
`total_tokens = 1000000`, `tokens_used = 0`, `tokens_left = 1000000`; a
stream for that user yielding one usage summary with total 50 and then the
terminal sentinel leaves the account at `tokens_used = 50`,
`tokens_left = 999950`, with the caller's last two frames being the
accounting frame reporting 999950 left and 50 used, then the terminal
sentinel. -/
theorem C9_first_request :
    get_or_create_user none "a@x.com" "A" none
      = { email := "a@x.com", name := "A", picture := none,
          total_tokens := 1000000, tokens_used := 0,
          tokens_left := 1000000 } ∧
    generate 200 "" [Line.valid (usageChunk 50), Line.doneSentinel]
        Termination.normalEnd (get_or_create_user none "a@x.com" "A" none)
        (get_or_create_user none "a@x.com" "A" none)
      = ([OutFrame.chunk (usageChunk 50), OutFrame.tokenUpdate 999950 50,
          OutFrame.doneFrame],
         { email := "a@x.com", name := "A", picture := none,
           total_tokens := 1000000, tokens_used := 50,
           tokens_left := 999950 }, 1) := by
  exact ⟨rfl, by decide⟩

/-- C10: in the synthetic accounting frame the `tokens_used` field is only
the usage total observed during the current stream — independent of the
account's cumulative `tokens_used` — and when the observed total is zero
the `tokens_left` field is the stale value captured at the pre-stream
quota check (`snap`), with no fresh read of the live row (`db`) and no
ledger update. -/
theorem C10_accounting_frame (snap db : Account) (t : Nat) (e : String)
    (term : Termination) :
    generate 200 e [Line.valid (usageChunk t), Line.doneSentinel]
        term snap db
      = if t = 0 then
          ([OutFrame.chunk (usageChunk t),
            OutFrame.tokenUpdate snap.tokens_left 0, OutFrame.doneFrame],
           db, 0)
        else
          ([OutFrame.chunk (usageChunk t),
            OutFrame.tokenUpdate (db.tokens_left - (t : Int)) t,
            OutFrame.doneFrame],
           reconcile db t, 1) := by
  rcases Nat.eq_zero_or_pos t with h | h
  · subst h
    simp [generate, processLines, track_usage, usageChunk]
  · rw [if_neg (Nat.pos_iff_ne_zero.mp h)]
    simp [generate, processLines, track_usage, usageChunk, h, reconcile]

end ByteChat
